import Mathlib

/-!
Shallow embedding of the escalation and agent-assignment engine of the
mmlink-cs repository (app/services/human_handoff.py, app/database/crud.py,
app/database/models.py).

The persistent store (SupabaseService) is modelled as an in-memory record
store: `fetch` with an equality filter is a list `filter` preserving stored
order, `fetch` with `order_by` additionally applies a stable sort on the
ordering key, `insert` appends, and `update` maps the field assignment over
every matching row.  Timestamps are natural numbers; UUIDs generated by the
code are passed in as explicit parameters; a call of `datetime.utcnow()` is
an explicit `now : Nat` parameter.
-/

namespace MmlinkCS

/-- TicketStatus enum of app/database/models.py. -/
inductive TicketStatus where
  | pending
  | assigned
  | in_progress
  | resolved
  | closed
deriving DecidableEq

/-- ConversationStatus enum of app/database/models.py (the only values the
escalation core writes are the string literals "active", "escalated",
"closed"). -/
inductive ConvStatus where
  | active
  | escalated
  | closed
deriving DecidableEq

/-- A row of the `staff` table.  The fields read with `dict.get(key, default)`
in crud.py (`current_chats`, `max_concurrent_chats`, `name`) are `Option`s,
mirroring a possibly missing column value. -/
structure Agent where
  id : String
  name : Option String
  role : String
  is_available : Bool
  max_concurrent_chats : Option Int
  current_chats : Option Int
deriving DecidableEq

/-- `agent.get('current_chats', 0)` of crud.py. -/
def Agent.currentChats (a : Agent) : Int := a.current_chats.getD 0

/-- `agent.get('max_concurrent_chats', 5)` of crud.py. -/
def Agent.maxChats (a : Agent) : Int := a.max_concurrent_chats.getD 5

/-- A row of the `support_tickets` table (SupportTicket model). -/
structure Ticket where
  id : String
  user_id : String
  conversation_id : String
  agent_id : Option String
  status : TicketStatus
  subject : String
  description : String
  escalated_at : Nat
  resolved_at : Option Nat
  timeout_at : Nat
deriving DecidableEq

/-- A row of the `conversations` table (Conversation model). -/
structure Conversation where
  id : String
  user_id : String
  status : ConvStatus
  agent_id : Option String
  escalated_at : Option Nat
  ended_at : Option Nat
deriving DecidableEq

/-- The record store: the three tables the escalation core touches. -/
structure DB where
  staff : List Agent
  support_tickets : List Ticket
  conversations : List Conversation
deriving DecidableEq

/-- StaffCRUD.get_available_agents: fetch staff with
filters is_available = true, role = "customer_support". -/
def get_available_agents (db : DB) : List Agent :=
  db.staff.filter (fun a => a.is_available && a.role == "customer_support")

/-- StaffCRUD.get_agent_with_capacity: iterate the available agents in stored
order and return the first with `current_chats < max_concurrent_chats`
(fields read through `.get` with defaults 0 and 5). -/
def get_agent_with_capacity (db : DB) : Option Agent :=
  (get_available_agents db).find? (fun a => decide (a.currentChats < a.maxChats))

/-- StaffCRUD.update_agent_chat_count: fetch the agent row by id; if found,
compute `current_chats = row.get('current_chats', 0) + increment` from the
first matching row and update every matching row to `max(0, current_chats)`.
If the agent is unknown nothing changes (the function still returns True). -/
def update_agent_chat_count (db : DB) (agent_id : String) (increment : Int) : DB :=
  match db.staff.find? (fun a => a.id == agent_id) with
  | none => db
  | some a =>
    let current : Int := a.currentChats + increment
    { db with
      staff := db.staff.map (fun b =>
        if b.id == agent_id then { b with current_chats := some (max 0 current) } else b) }

/-- TicketCRUD.assign_ticket: update the ticket row to status ASSIGNED with
the given agent. -/
def assign_ticket (db : DB) (ticket_id agent_id : String) : DB :=
  { db with
    support_tickets := db.support_tickets.map (fun t =>
      if t.id == ticket_id then
        { t with status := .assigned, agent_id := some agent_id } else t) }

/-- TicketCRUD.resolve_ticket: update the ticket row to status RESOLVED and
stamp `resolved_at` — unconditionally, with no check of the prior status. -/
def resolve_ticket (db : DB) (ticket_id : String) (now : Nat) : DB :=
  { db with
    support_tickets := db.support_tickets.map (fun t =>
      if t.id == ticket_id then
        { t with status := .resolved, resolved_at := some now } else t) }

/-- ConversationCRUD.escalate_conversation: update the conversation row to
status "escalated" with the given agent and stamp `escalated_at`. -/
def escalate_conversation (db : DB) (conversation_id agent_id : String) (now : Nat) : DB :=
  { db with
    conversations := db.conversations.map (fun c =>
      if c.id == conversation_id then
        { c with status := .escalated, agent_id := some agent_id,
                 escalated_at := some now } else c) }

/-- Ascending order on ticket creation (escalation) time, the ordering key of
the store's `order_by="escalated_at asc"`. -/
def timeLE (a b : Ticket) : Prop := a.escalated_at ≤ b.escalated_at

instance : DecidableRel timeLE := fun a b => Nat.decLe a.escalated_at b.escalated_at

instance : IsTotal Ticket timeLE := ⟨fun a b => Nat.le_total a.escalated_at b.escalated_at⟩

instance : IsTrans Ticket timeLE := ⟨fun _ _ _ h1 h2 => Nat.le_trans h1 h2⟩

/-- TicketCRUD.get_pending_tickets: fetch support_tickets with
filters status = PENDING, order_by escalated_at ascending (modelled as a
sort of the filtered rows by `escalated_at`). -/
def get_pending_tickets (db : DB) : List Ticket :=
  List.insertionSort timeLE (db.support_tickets.filter (fun t => t.status == TicketStatus.pending))

/-- The dict returned by HumanHandoffService.escalate_to_human. -/
structure EscResult where
  success : Bool
  message : String
  status : Option String
  agent_name : Option String
  ticket_id : Option String
deriving DecidableEq

/-- `self.escalation_timeout = 300` of HumanHandoffService. -/
def escalation_timeout : Nat := 300

/-- The `{"success": False, "message": "No agents available at the moment",
"status": "queue"}` return of escalate_to_human. -/
def noAgentResult : EscResult :=
  { success := false, message := "No agents available at the moment",
    status := some "queue", agent_name := none, ticket_id := none }

/-- The `{"success": False, "message": "Failed to create support ticket",
"status": "error"}` return of escalate_to_human. -/
def createFailedResult : EscResult :=
  { success := false, message := "Failed to create support ticket",
    status := some "error", agent_name := none, ticket_id := none }

/-- The `{"success": False, "message": "System error during escalation",
"status": "error"}` return of the except branch of escalate_to_human. -/
def systemErrorResult : EscResult :=
  { success := false, message := "System error during escalation",
    status := some "error", agent_name := none, ticket_id := none }

/-- The success return of escalate_to_human. -/
def connectedResult (agent : Agent) (ticket_id : String) : EscResult :=
  { success := true, message := "Connected to human agent",
    status := none, agent_name := some (agent.name.getD "Customer Service"),
    ticket_id := some ticket_id }

/-- The SupportTicket record built inside escalate_to_human and completed by
TicketCRUD.create_ticket (fresh uuid `tid`, `escalated_at = now`,
`timeout_at = now + escalation_timeout`). -/
def newTicket (user_id conversation_id : String) (subject description : Option String)
    (tid : String) (now : Nat) : Ticket :=
  { id := tid, user_id := user_id, conversation_id := conversation_id,
    agent_id := none, status := .pending,
    subject := subject.getD "Customer Service Request",
    description := description.getD "User requested human assistance",
    escalated_at := now, resolved_at := none,
    timeout_at := now + escalation_timeout }

/-- HumanHandoffService.escalate_to_human on the path where every persistence
call succeeds: check capacity; if no agent, return the no-agents dict without
touching the store; otherwise create the PENDING ticket, assign it, escalate
the conversation, increment the agent's chat count, and return success. -/
def escalate_to_human (db : DB) (user_id conversation_id : String)
    (subject description : Option String) (tid : String) (now : Nat) :
    DB × EscResult :=
  match get_agent_with_capacity db with
  | none => (db, noAgentResult)
  | some agent =>
    let t := newTicket user_id conversation_id subject description tid now
    let db1 := { db with support_tickets := db.support_tickets ++ [t] }
    let db2 := assign_ticket db1 tid agent.id
    let db3 := escalate_conversation db2 conversation_id agent.id now
    let db4 := update_agent_chat_count db3 agent.id 1
    (db4, connectedResult agent tid)

/-- HumanHandoffService.end_conversation: fetch the conversation; if it exists
and its `agent_id` is truthy (present and non-empty), decrement that agent's
chat count, close the conversation stamping `ended_at`, resolve the ticket
when a ticket id is supplied, and return true; otherwise return false. -/
def end_conversation (db : DB) (conversation_id : String) (ticket_id : Option String)
    (now : Nat) : DB × Bool :=
  match db.conversations.find? (fun c => c.id == conversation_id) with
  | none => (db, false)
  | some conv =>
    if conv.agent_id.getD "" ≠ "" then
      let agentId := conv.agent_id.getD ""
      let db1 := update_agent_chat_count db agentId (-1)
      let db2 := { db1 with
        conversations := db1.conversations.map (fun c =>
          if c.id == conversation_id then
            { c with status := .closed, ended_at := some now } else c) }
      let db3 := match ticket_id with
        | some tid => resolve_ticket db2 tid now
        | none => db2
      (db3, true)
    else (db, false)

/-- HumanHandoffService.handle_timeout: fetch the ticket by id (false if
absent); if `now > timeout_at` (strict): when the status is PENDING, close
the ticket, stamp `resolved_at`, and notify the user (the emitted user id is
collected in the returned list); return true whether or not the status was
PENDING.  If not yet timed out, return false.  Agents are never touched. -/
def handle_timeout (db : DB) (ticket_id : String) (now : Nat) :
    DB × Bool × List String :=
  match db.support_tickets.find? (fun t => t.id == ticket_id) with
  | none => (db, false, [])
  | some t =>
    if t.timeout_at < now then
      if t.status == TicketStatus.pending then
        ({ db with
           support_tickets := db.support_tickets.map (fun u =>
             if u.id == ticket_id then
               { u with status := .closed, resolved_at := some now } else u) },
         true, [t.user_id])
      else (db, true, [])
    else (db, false, [])

/-- The `for index, ticket in enumerate(pending_tickets)` loop of
HumanHandoffService.get_queue_position: return `index + 1` for the first
ticket of the user, none when no ticket matches. -/
def queueScan (user_id : String) : List Ticket → Option Nat
  | [] => none
  | t :: ts =>
    if t.user_id == user_id then some 1
    else (queueScan user_id ts).map (· + 1)

/-- HumanHandoffService.get_queue_position: walk the pending tickets in
`escalated_at` order and return 1 + the index of the first ticket of the
user; none when the user has no pending ticket. -/
def get_queue_position (db : DB) (user_id : String) : Option Nat :=
  queueScan user_id (get_pending_tickets db)

/-- HumanHandoffService.transfer_conversation: unconditionally escalate the
conversation to the destination agent, decrement the source agent's count,
increment the destination agent's count, then fetch tickets with
filters conversation_id = cid and status = "assigned" and, if any, set the
first one's `agent_id` to the destination.  Always returns true. -/
def transfer_conversation (db : DB) (conversation_id from_agent_id to_agent_id : String)
    (now : Nat) : DB × Bool :=
  let db1 := escalate_conversation db conversation_id to_agent_id now
  let db2 := update_agent_chat_count db1 from_agent_id (-1)
  let db3 := update_agent_chat_count db2 to_agent_id 1
  let asg := db3.support_tickets.filter
    (fun t => t.conversation_id == conversation_id && t.status == TicketStatus.assigned)
  let db4 := match asg with
    | [] => db3
    | t0 :: _ =>
      { db3 with
        support_tickets := db3.support_tickets.map (fun t =>
          if t.id == t0.id then { t with agent_id := some to_agent_id } else t) }
  (db4, true)

/-- Fault injection for the persistence calls inside escalate_to_human.
`create_raises` models `db.insert` raising inside TicketCRUD.create_ticket
(the only CRUD call whose exception propagates to the service's `except`
branch; the row is not inserted).  `create_ok = false` models `insert`
returning no data (`if ticket:` is falsy).  `assign_ok`, `conv_ok`,
`count_ok` model the internally-caught exceptions of assign_ticket,
escalate_conversation and update_agent_chat_count: the CRUD method returns
False and the underlying update does not happen. -/
structure Faults where
  create_raises : Bool
  create_ok : Bool
  assign_ok : Bool
  conv_ok : Bool
  count_ok : Bool
deriving DecidableEq

/-- escalate_to_human with the store's failures made explicit.  The service
checks the boolean result of assign_ticket only; the results of
escalate_conversation and update_agent_chat_count are ignored, so their
failures do not change the returned dict. -/
def escalate_to_human_faulty (f : Faults) (db : DB) (user_id conversation_id : String)
    (subject description : Option String) (tid : String) (now : Nat) :
    DB × EscResult :=
  match get_agent_with_capacity db with
  | none => (db, noAgentResult)
  | some agent =>
    if f.create_raises then (db, systemErrorResult)
    else if f.create_ok then
      let t := newTicket user_id conversation_id subject description tid now
      let db1 := { db with support_tickets := db.support_tickets ++ [t] }
      if f.assign_ok then
        let db2 := assign_ticket db1 tid agent.id
        let db3 := if f.conv_ok then escalate_conversation db2 conversation_id agent.id now
                   else db2
        let db4 := if f.count_ok then update_agent_chat_count db3 agent.id 1 else db3
        (db4, connectedResult agent tid)
      else (db1, createFailedResult)
    else (db, createFailedResult)

/-- The point an escalate_to_human execution has reached, between two of its
`await`ed persistence calls.  Each constructor is one atomic store access of
the Python coroutine; between them another task may run. -/
inductive Phase where
  | ready
  | scanned (found : Option Agent)
  | created (agent : Agent)
  | ticketAssigned (agent : Agent)
  | convUpdated (agent : Agent)
  | finished (res : EscResult)
deriving DecidableEq

/-- One in-flight escalate_to_human call: its arguments and current phase. -/
structure Task where
  user_id : String
  conversation_id : String
  tid : String
  now : Nat
  phase : Phase
deriving DecidableEq

/-- Execute the next atomic store access of a task against the shared store.
The scan (get_agent_with_capacity) and the later counter increment are
separate steps, exactly as the two separate awaits in the source. -/
def stepTask (db : DB) (tk : Task) : DB × Task :=
  match tk.phase with
  | .ready => (db, { tk with phase := .scanned (get_agent_with_capacity db) })
  | .scanned none => (db, { tk with phase := .finished noAgentResult })
  | .scanned (some agent) =>
    let t := newTicket tk.user_id tk.conversation_id none none tk.tid tk.now
    ({ db with support_tickets := db.support_tickets ++ [t] },
     { tk with phase := .created agent })
  | .created agent =>
    (assign_ticket db tk.tid agent.id, { tk with phase := .ticketAssigned agent })
  | .ticketAssigned agent =>
    (escalate_conversation db tk.conversation_id agent.id tk.now,
     { tk with phase := .convUpdated agent })
  | .convUpdated agent =>
    (update_agent_chat_count db agent.id 1,
     { tk with phase := .finished (connectedResult agent tk.tid) })
  | .finished _ => (db, tk)

/-- Two concurrent escalate_to_human calls over one shared store. -/
structure Sys where
  db : DB
  t1 : Task
  t2 : Task
deriving DecidableEq

/-- Run one atomic step of the first (true) or second (false) task. -/
def stepSys (s : Sys) (first : Bool) : Sys :=
  if first then
    let (db2, tk) := stepTask s.db s.t1
    { s with db := db2, t1 := tk }
  else
    let (db2, tk) := stepTask s.db s.t2
    { s with db := db2, t2 := tk }

/-- Run a schedule: the list picks, step by step, which task advances. -/
def runSched (s : Sys) : List Bool → Sys
  | [] => s
  | b :: bs => runSched (stepSys s b) bs

/-! Concrete fixtures used by witnesses and counterexamples. -/

/-- An available customer-support agent with the given load and capacity. -/
def mkAgent (i : String) (cur maxc : Int) : Agent :=
  { id := i, name := none, role := "customer_support", is_available := true,
    max_concurrent_chats := some maxc, current_chats := some cur }

/-- A support ticket fixture. -/
def mkTicket (i uid cid : String) (st : TicketStatus) (esc tout : Nat) : Ticket :=
  { id := i, user_id := uid, conversation_id := cid, agent_id := none,
    status := st, subject := "s", description := "d",
    escalated_at := esc, resolved_at := none, timeout_at := tout }

/-- A conversation fixture. -/
def mkConv (i uid : String) (st : ConvStatus) (ag : Option String) : Conversation :=
  { id := i, user_id := uid, status := st, agent_id := ag,
    escalated_at := none, ended_at := none }

/-! Helper lemmas. -/

/-- A successful `find?` splits its list at the first hit. -/
lemma find?_split {α : Type _} (p : α → Bool) :
    ∀ {l : List α} {a : α}, l.find? p = some a →
      ∃ l1 l2, l = l1 ++ a :: l2 ∧ ∀ b ∈ l1, p b = false := by
  intro l
  induction l with
  | nil => intro a h; simp [List.find?] at h
  | cons x xs ih =>
    intro a h
    rw [List.find?_cons] at h
    cases hx : p x with
    | true =>
      rw [hx] at h
      simp only [Option.some.injEq] at h
      subst h
      exact ⟨[], xs, rfl, by simp⟩
    | false =>
      rw [hx] at h
      obtain ⟨l1, l2, heq, hall⟩ := ih h
      refine ⟨x :: l1, l2, by rw [heq]; rfl, ?_⟩
      intro b hb
      rcases List.mem_cons.mp hb with hb | hb
      · rw [hb]; exact hx
      · exact hall b hb

/-- `queueScan` returns none exactly when no ticket of the user is in the
list. -/
lemma queueScan_eq_none (uid : String) :
    ∀ l : List Ticket, queueScan uid l = none ↔ ∀ t ∈ l, t.user_id ≠ uid := by
  intro l
  induction l with
  | nil => simp [queueScan]
  | cons x xs ih =>
    by_cases hx : x.user_id = uid
    · simp [queueScan, hx]
    · simp only [queueScan, beq_iff_eq, hx, if_false, Option.map_eq_none', ih,
        List.mem_cons]
      constructor
      · intro h t ht
        rcases ht with ht | ht
        · rw [ht]; exact hx
        · exact h t ht
      · intro h t ht; exact h t (Or.inr ht)

/-- A successful `queueScan` locates the first ticket of the user and returns
its 1-based index. -/
lemma queueScan_eq_some (uid : String) :
    ∀ {l : List Ticket} {n : Nat}, queueScan uid l = some n →
      ∃ l1 t l2, l = l1 ++ t :: l2 ∧ t.user_id = uid ∧ n = l1.length + 1 ∧
        ∀ u ∈ l1, u.user_id ≠ uid := by
  intro l
  induction l with
  | nil => intro n h; simp [queueScan] at h
  | cons x xs ih =>
    intro n h
    by_cases hx : x.user_id = uid
    · simp only [queueScan, beq_iff_eq, hx, if_true, Option.some.injEq] at h
      exact ⟨[], x, xs, rfl, hx, h.symm, by simp⟩
    · simp only [queueScan, beq_iff_eq, hx, if_false] at h
      cases hscan : queueScan uid xs with
      | none => rw [hscan] at h; simp at h
      | some m =>
        rw [hscan] at h
        simp only [Option.map_some', Option.some.injEq] at h
        obtain ⟨l1, t, l2, heq, huid, hm, hall⟩ := ih hscan
        refine ⟨x :: l1, t, l2, by rw [heq]; rfl, huid, ?_, ?_⟩
        · rw [← h, hm]; simp
        · intro u hu
          rcases List.mem_cons.mp hu with hu | hu
          · rw [hu]; exact hx
          · exact hall u hu

/-- Membership in the sorted pending list is exactly being a PENDING row of
the tickets table. -/
lemma mem_get_pending_tickets (db : DB) (t : Ticket) :
    t ∈ get_pending_tickets db ↔
      t ∈ db.support_tickets ∧ t.status = TicketStatus.pending := by
  unfold get_pending_tickets
  rw [(List.perm_insertionSort timeLE _).mem_iff, List.mem_filter]
  simp

/-! ## C7 -/

/-- C7: the agent-selection scan (StaffCRUD.get_agent_with_capacity) walks
the available customer-support agents in stored order and returns the first
whose current_chats is below max_concurrent_chats; it returns none exactly
when no available agent has spare capacity. -/
theorem C7_reserve_capacity_first_fit (db : DB) :
    (get_agent_with_capacity db = none ↔
      ∀ a ∈ get_available_agents db, ¬ (a.currentChats < a.maxChats)) ∧
    (∀ a, get_agent_with_capacity db = some a →
      a ∈ get_available_agents db ∧ a.currentChats < a.maxChats ∧
      ∃ l1 l2, get_available_agents db = l1 ++ a :: l2 ∧
        ∀ b ∈ l1, ¬ (b.currentChats < b.maxChats)) := by
  constructor
  · unfold get_agent_with_capacity
    rw [List.find?_eq_none]
    constructor
    · intro h a ha; simpa using h a ha
    · intro h a ha; simpa using h a ha
  · intro a h
    unfold get_agent_with_capacity at h
    refine ⟨List.mem_of_find?_eq_some h, ?_, ?_⟩
    · simpa using List.find?_some h
    · obtain ⟨l1, l2, heq, hall⟩ := find?_split _ h
      refine ⟨l1, l2, heq, ?_⟩
      intro b hb
      simpa using hall b hb

/-- Witness for C7: two available agents, the first full, the second with
spare capacity; the scan skips the full one and picks the second. -/
theorem C7_reserve_capacity_first_fit_witness :
    get_agent_with_capacity
        { staff := [mkAgent "A" 1 1, mkAgent "B" 0 5], support_tickets := [],
          conversations := [] } = some (mkAgent "B" 0 5) ∧
      mkAgent "B" 0 5 ∈ get_available_agents
        { staff := [mkAgent "A" 1 1, mkAgent "B" 0 5], support_tickets := [],
          conversations := [] } ∧
      (mkAgent "B" 0 5).currentChats < (mkAgent "B" 0 5).maxChats := by
  have h := (C7_reserve_capacity_first_fit
    { staff := [mkAgent "A" 1 1, mkAgent "B" 0 5], support_tickets := [],
      conversations := [] }).2 (mkAgent "B" 0 5) (by decide)
  exact ⟨by decide, h.1, h.2.1⟩

/-! ## C8 -/

/-- C8: get_queue_position returns none exactly when the user has no PENDING
ticket, and otherwise the 1-based rank of the user's first PENDING ticket in
the list of all PENDING tickets sorted ascending by creation (escalation)
time. -/
theorem C8_queue_position_rank (db : DB) (uid : String) :
    (get_queue_position db uid = none ↔
      ∀ t ∈ db.support_tickets, t.status = TicketStatus.pending → t.user_id ≠ uid) ∧
    (∀ n, get_queue_position db uid = some n →
      ∃ l1 t l2, get_pending_tickets db = l1 ++ t :: l2 ∧
        t.user_id = uid ∧ n = l1.length + 1 ∧ ∀ u ∈ l1, u.user_id ≠ uid) ∧
    List.Sorted timeLE (get_pending_tickets db) ∧
    (∀ t, t ∈ get_pending_tickets db ↔
      t ∈ db.support_tickets ∧ t.status = TicketStatus.pending) := by
  refine ⟨?_, ?_, ?_, fun t => mem_get_pending_tickets db t⟩
  · unfold get_queue_position
    rw [queueScan_eq_none]
    constructor
    · intro h t ht hst
      exact h t ((mem_get_pending_tickets db t).mpr ⟨ht, hst⟩)
    · intro h t ht
      obtain ⟨hmem, hst⟩ := (mem_get_pending_tickets db t).mp ht
      exact h t hmem hst
  · intro n h
    exact queueScan_eq_some uid h
  · exact List.sorted_insertionSort timeLE _

/-- Witness for C8: two pending tickets with the later one owned by the
witness user, whose queue position is therefore 2; a user without a pending
ticket gets none. -/
theorem C8_queue_position_rank_witness :
    (get_queue_position
        { staff := [], conversations := [],
          support_tickets := [mkTicket "t2" "u2" "c2" .pending 20 320,
                              mkTicket "t1" "u1" "c1" .pending 10 310] } "u2" =
      some 2) ∧
    (get_queue_position
        { staff := [], conversations := [],
          support_tickets := [mkTicket "t2" "u2" "c2" .pending 20 320,
                              mkTicket "t1" "u1" "c1" .pending 10 310] } "u9" =
      none) ∧
    (∃ l1 t l2,
      get_pending_tickets
          { staff := [], conversations := [],
            support_tickets := [mkTicket "t2" "u2" "c2" .pending 20 320,
                                mkTicket "t1" "u1" "c1" .pending 10 310] } =
        l1 ++ t :: l2 ∧
      t.user_id = "u2" ∧ 2 = l1.length + 1 ∧ ∀ u ∈ l1, u.user_id ≠ "u2") := by
  refine ⟨by decide, ?_, ?_⟩
  · exact (C8_queue_position_rank
      { staff := [], conversations := [],
        support_tickets := [mkTicket "t2" "u2" "c2" .pending 20 320,
                            mkTicket "t1" "u1" "c1" .pending 10 310] } "u9").1.mpr
      (by decide)
  · exact (C8_queue_position_rank
      { staff := [], conversations := [],
        support_tickets := [mkTicket "t2" "u2" "c2" .pending 20 320,
                            mkTicket "t1" "u1" "c1" .pending 10 310] } "u2").2.1 2
      (by decide)

/-! More helper lemmas: the stored chat count of an agent id. -/

/-- The `current_chats` the store returns for the first staff row with the
given id (what `update_agent_chat_count` reads), 0 when the agent is
unknown. -/
def agentChats (db : DB) (aid : String) : Int :=
  match db.staff.find? (fun a => a.id == aid) with
  | some a => a.currentChats
  | none => 0

/-- `agentChats` depends only on the staff table. -/
lemma agentChats_congr {db1 db2 : DB} (h : db1.staff = db2.staff) (aid : String) :
    agentChats db1 aid = agentChats db2 aid := by
  unfold agentChats; rw [h]

/-- `find?` commutes with a map that leaves the search predicate unchanged. -/
lemma find?_map_pres {α : Type _} (p : α → Bool) (g : α → α)
    (hg : ∀ x, p (g x) = p x) (l : List α) :
    (l.map g).find? p = (l.find? p).map g := by
  rw [List.find?_map]
  have hcomp : (p ∘ g) = p := funext hg
  rw [hcomp]

/-- What an update of a known agent's chat count does to the stored value:
the read-modify-write lands on `max 0 (old + increment)`. -/
lemma agentChats_update (db : DB) (aid : String) (inc : Int)
    (h : (db.staff.find? (fun a => a.id == aid)).isSome) :
    agentChats (update_agent_chat_count db aid inc) aid =
      max 0 (agentChats db aid + inc) := by
  cases hf : db.staff.find? (fun a => a.id == aid) with
  | none => rw [hf] at h; simp at h
  | some a =>
    unfold agentChats update_agent_chat_count
    simp only [hf]
    rw [find?_map_pres (fun b : Agent => b.id == aid)
      (fun b : Agent =>
        if b.id == aid then
          { b with current_chats := some (max 0 (a.currentChats + inc)) } else b)
      (by intro x; by_cases hb : (x.id == aid) <;> simp [hb]) db.staff]
    rw [hf, Option.map_some']
    have ha : (a.id == aid) = true :=
      @List.find?_some Agent (fun b => b.id == aid) a db.staff hf
    simp only [ha, if_true]
    simp [Agent.currentChats]

/-- An agent id occurring in the staff table is found by the id filter. -/
lemma find_staff_isSome_of_mem {db : DB} {a : Agent} (h : a ∈ db.staff) :
    (db.staff.find? (fun b => b.id == a.id)).isSome := by
  rw [List.find?_isSome]
  exact ⟨a, h, by simp⟩

/-- The agent picked by the capacity scan is a staff row. -/
lemma staff_mem_of_capacity {db : DB} {a : Agent}
    (h : get_agent_with_capacity db = some a) : a ∈ db.staff := by
  unfold get_agent_with_capacity at h
  have := List.mem_of_find?_eq_some h
  exact (List.mem_filter.mp this).1

/-! ## C1 -/

/-- Counterexample for C1: one available agent with no spare capacity; the
code returns the no-agents dict without creating any ticket and without
escalating the conversation, whereas the claim demands a PENDING ticket, an
ESCALATED conversation and a QUEUED position. -/
theorem C1_counterexample :
    ((escalate_to_human
        { staff := [mkAgent "A" 1 1], support_tickets := [],
          conversations := [mkConv "c1" "u1" .active none] }
        "u1" "c1" none none "t1" 100).1.support_tickets = []) ∧
    ((escalate_to_human
        { staff := [mkAgent "A" 1 1], support_tickets := [],
          conversations := [mkConv "c1" "u1" .active none] }
        "u1" "c1" none none "t1" 100).1.conversations =
      [mkConv "c1" "u1" .active none]) ∧
    ¬ (∃ t ∈ (escalate_to_human
        { staff := [mkAgent "A" 1 1], support_tickets := [],
          conversations := [mkConv "c1" "u1" .active none] }
        "u1" "c1" none none "t1" 100).1.support_tickets,
        t.status = TicketStatus.pending) := by
  refine ⟨by decide, by decide, by decide⟩

/-- C1 as amended: when no available agent has spare capacity,
escalate_to_human creates no ticket and changes no state at all — it returns
the store unchanged together with the failure dict (`success = false`,
message "No agents available at the moment", status "queue"); no queue
position is computed and the conversation is not escalated. -/
theorem C1_no_capacity_amended (db : DB) (uid cid : String)
    (subj desc : Option String) (tid : String) (now : Nat)
    (h : get_agent_with_capacity db = none) :
    escalate_to_human db uid cid subj desc tid now = (db, noAgentResult) := by
  unfold escalate_to_human
  rw [h]

/-- Witness for C1 (amended): one full agent; escalate leaves the store
untouched and returns the no-agents dict. -/
theorem C1_no_capacity_amended_witness :
    escalate_to_human
        { staff := [mkAgent "A" 1 1], support_tickets := [],
          conversations := [mkConv "c1" "u1" .active none] }
        "u1" "c1" none none "t1" 100 =
      ({ staff := [mkAgent "A" 1 1], support_tickets := [],
         conversations := [mkConv "c1" "u1" .active none] }, noAgentResult) :=
  C1_no_capacity_amended
    { staff := [mkAgent "A" 1 1], support_tickets := [],
      conversations := [mkConv "c1" "u1" .active none] }
    "u1" "c1" none none "t1" 100 (by decide)

/-- When the capacity scan finds nobody, escalate returns the store
unchanged with the no-agents dict. -/
lemma escalate_no_capacity (db : DB) (uid cid : String) (subj desc : Option String)
    (tid : String) (now : Nat)
    (h : get_agent_with_capacity db = none) :
    escalate_to_human db uid cid subj desc tid now = (db, noAgentResult) := by
  unfold escalate_to_human
  rw [h]

/-- A successful escalate call spelled out: ticket appended and assigned,
conversation escalated, chosen agent's count updated, success dict
returned. -/
lemma escalate_success (db : DB) (uid cid : String) (subj desc : Option String)
    (tid : String) (now : Nat) (a : Agent)
    (h : get_agent_with_capacity db = some a) :
    escalate_to_human db uid cid subj desc tid now =
      (update_agent_chat_count
        (escalate_conversation
          (assign_ticket
            { db with support_tickets := db.support_tickets ++
                [newTicket uid cid subj desc tid now] } tid a.id)
          cid a.id now) a.id 1,
       connectedResult a tid) := by
  unfold escalate_to_human
  rw [h]

/-- A successful escalate call performs the read-modify-write on the chosen
agent's stored chat count. -/
lemma escalate_success_agentChats (db : DB) (uid cid : String)
    (subj desc : Option String) (tid : String) (now : Nat) (a : Agent)
    (h : get_agent_with_capacity db = some a) :
    agentChats (escalate_to_human db uid cid subj desc tid now).1 a.id =
      max 0 (agentChats db a.id + 1) := by
  have hsome := find_staff_isSome_of_mem (staff_mem_of_capacity h)
  rw [escalate_success db uid cid subj desc tid now a h]
  exact agentChats_update _ _ _ hsome

/-! ## C2 -/

/-- Counterexample for C2: one agent with capacity 5; two escalate calls for
the same conversation return two different fresh tickets (no duplicate
check exists) and the agent's stored chat count reaches 2, so capacity is
reserved twice, not at most once. -/
theorem C2_counterexample :
    ((escalate_to_human
        { staff := [mkAgent "A" 0 5], support_tickets := [],
          conversations := [mkConv "c1" "u1" .active none] }
        "u1" "c1" none none "t1" 10).2.ticket_id = some "t1") ∧
    ((escalate_to_human
        (escalate_to_human
          { staff := [mkAgent "A" 0 5], support_tickets := [],
            conversations := [mkConv "c1" "u1" .active none] }
          "u1" "c1" none none "t1" 10).1
        "u1" "c1" none none "t2" 20).2.ticket_id = some "t2") ∧
    ¬ ((escalate_to_human
        (escalate_to_human
          { staff := [mkAgent "A" 0 5], support_tickets := [],
            conversations := [mkConv "c1" "u1" .active none] }
          "u1" "c1" none none "t1" 10).1
        "u1" "c1" none none "t2" 20).2.ticket_id =
       (escalate_to_human
          { staff := [mkAgent "A" 0 5], support_tickets := [],
            conversations := [mkConv "c1" "u1" .active none] }
          "u1" "c1" none none "t1" 10).2.ticket_id) ∧
    agentChats
      (escalate_to_human
        (escalate_to_human
          { staff := [mkAgent "A" 0 5], support_tickets := [],
            conversations := [mkConv "c1" "u1" .active none] }
          "u1" "c1" none none "t1" 10).1
        "u1" "c1" none none "t2" 20).1 "A" = 2 := by
  refine ⟨by decide, by decide, by decide, by decide⟩

/-- C2 as amended: escalate_to_human has no duplicate-escalation check.
Whenever a call finds an agent with capacity it creates and returns a fresh
ticket carrying the supplied new id — so two successful calls for the same
open conversation return two different tickets — and every successful call
performs the read-modify-write on its chosen agent's chat count, landing on
`max 0 (old + 1)`: capacity is reserved once per call, not at most once per
conversation. -/
theorem C2_no_idempotence_amended (db : DB) (uid cid : String)
    (subj desc : Option String) (tid1 tid2 : String) (now1 now2 : Nat)
    (a b : Agent)
    (h1 : get_agent_with_capacity db = some a)
    (h2 : get_agent_with_capacity
      (escalate_to_human db uid cid subj desc tid1 now1).1 = some b) :
    (escalate_to_human db uid cid subj desc tid1 now1).2.ticket_id = some tid1 ∧
    (escalate_to_human (escalate_to_human db uid cid subj desc tid1 now1).1
      uid cid subj desc tid2 now2).2.ticket_id = some tid2 ∧
    (tid1 ≠ tid2 →
      (escalate_to_human (escalate_to_human db uid cid subj desc tid1 now1).1
        uid cid subj desc tid2 now2).2.ticket_id ≠
      (escalate_to_human db uid cid subj desc tid1 now1).2.ticket_id) ∧
    agentChats (escalate_to_human db uid cid subj desc tid1 now1).1 a.id =
      max 0 (agentChats db a.id + 1) ∧
    agentChats (escalate_to_human (escalate_to_human db uid cid subj desc tid1 now1).1
        uid cid subj desc tid2 now2).1 b.id =
      max 0 (agentChats (escalate_to_human db uid cid subj desc tid1 now1).1 b.id + 1) := by
  refine ⟨?_, ?_, ?_, ?_, ?_⟩
  · rw [escalate_success db uid cid subj desc tid1 now1 a h1]
    rfl
  · rw [escalate_success _ uid cid subj desc tid2 now2 b h2]
    rfl
  · intro hne
    rw [escalate_success _ uid cid subj desc tid2 now2 b h2,
        escalate_success db uid cid subj desc tid1 now1 a h1]
    intro hc
    simp only [connectedResult, Option.some.injEq] at hc
    exact hne hc.symm
  · exact escalate_success_agentChats db uid cid subj desc tid1 now1 a h1
  · exact escalate_success_agentChats _ uid cid subj desc tid2 now2 b h2

/-- Witness for C2 (amended): agent "A" with capacity 5; the two calls return
tickets "t1" and "t2" and the counter is read-modify-written by each call. -/
theorem C2_no_idempotence_amended_witness :
    ((escalate_to_human
        { staff := [mkAgent "A" 0 5], support_tickets := [],
          conversations := [mkConv "c1" "u1" .active none] }
        "u1" "c1" none none "t1" 10).2.ticket_id = some "t1") ∧
    ((escalate_to_human
        (escalate_to_human
          { staff := [mkAgent "A" 0 5], support_tickets := [],
            conversations := [mkConv "c1" "u1" .active none] }
          "u1" "c1" none none "t1" 10).1
        "u1" "c1" none none "t2" 20).2.ticket_id = some "t2") ∧
    ((escalate_to_human
        (escalate_to_human
          { staff := [mkAgent "A" 0 5], support_tickets := [],
            conversations := [mkConv "c1" "u1" .active none] }
          "u1" "c1" none none "t1" 10).1
        "u1" "c1" none none "t2" 20).2.ticket_id ≠
      (escalate_to_human
        { staff := [mkAgent "A" 0 5], support_tickets := [],
          conversations := [mkConv "c1" "u1" .active none] }
        "u1" "c1" none none "t1" 10).2.ticket_id) ∧
    (agentChats (escalate_to_human
        { staff := [mkAgent "A" 0 5], support_tickets := [],
          conversations := [mkConv "c1" "u1" .active none] }
        "u1" "c1" none none "t1" 10).1 (mkAgent "A" 0 5).id =
      max 0 (agentChats
        { staff := [mkAgent "A" 0 5], support_tickets := [],
          conversations := [mkConv "c1" "u1" .active none] } (mkAgent "A" 0 5).id + 1)) ∧
    (agentChats (escalate_to_human
        (escalate_to_human
          { staff := [mkAgent "A" 0 5], support_tickets := [],
            conversations := [mkConv "c1" "u1" .active none] }
          "u1" "c1" none none "t1" 10).1
        "u1" "c1" none none "t2" 20).1 (mkAgent "A" 1 5).id =
      max 0 (agentChats
        (escalate_to_human
          { staff := [mkAgent "A" 0 5], support_tickets := [],
            conversations := [mkConv "c1" "u1" .active none] }
          "u1" "c1" none none "t1" 10).1 (mkAgent "A" 1 5).id + 1)) := by
  have h := C2_no_idempotence_amended
    { staff := [mkAgent "A" 0 5], support_tickets := [],
      conversations := [mkConv "c1" "u1" .active none] }
    "u1" "c1" none none "t1" "t2" 10 20 (mkAgent "A" 0 5) (mkAgent "A" 1 5)
    (by decide) (by decide)
  exact ⟨h.1, h.2.1, h.2.2.1 (by decide), h.2.2.2.1, h.2.2.2.2⟩

/-! ## C3 -/

/-- An update of a chat count never stores a negative value, so the lower
bound of the load invariant is preserved. -/
lemma update_count_nonneg (db : DB) (aid : String) (inc : Int)
    (h : ∀ ag ∈ db.staff, 0 ≤ ag.currentChats) :
    ∀ ag ∈ (update_agent_chat_count db aid inc).staff, 0 ≤ ag.currentChats := by
  cases hf : db.staff.find? (fun a => a.id == aid) with
  | none => unfold update_agent_chat_count; rw [hf]; exact h
  | some a =>
    unfold update_agent_chat_count
    rw [hf]
    intro ag hag
    obtain ⟨bsrc, hb, hbe⟩ := List.mem_map.mp hag
    by_cases hid : (bsrc.id == aid)
    · rw [← hbe]
      simp only [hid, if_true]
      simp [Agent.currentChats]
    · rw [← hbe]
      simp only [hid, if_false]
      exact h bsrc hb

/-- transfer_conversation changes the staff table exactly through its two
chat-count updates. -/
lemma transfer_conversation_staff (db : DB) (cid f t : String) (now : Nat) :
    (transfer_conversation db cid f t now).1.staff =
      (update_agent_chat_count (update_agent_chat_count
        (escalate_conversation db cid t now) f (-1)) t 1).staff := by
  unfold transfer_conversation
  dsimp only
  split <;> rfl

/-- end_conversation either leaves the staff table alone or passes it through
one decrementing chat-count update. -/
lemma end_conversation_staff (db : DB) (cid : String) (tk : Option String) (now : Nat) :
    (end_conversation db cid tk now).1.staff = db.staff ∨
    ∃ aid, (end_conversation db cid tk now).1.staff =
      (update_agent_chat_count db aid (-1)).staff := by
  cases hf : db.conversations.find? (fun c => c.id == cid) with
  | none => left; unfold end_conversation; rw [hf]
  | some conv =>
    unfold end_conversation
    simp only [hf]
    by_cases hag : conv.agent_id.getD "" ≠ ""
    · rw [if_pos hag]
      cases tk with
      | none => right; exact ⟨conv.agent_id.getD "", rfl⟩
      | some tkid => right; exact ⟨conv.agent_id.getD "", rfl⟩
    · rw [if_neg hag]
      left; rfl

/-- handle_timeout never touches the staff table. -/
lemma handle_timeout_staff (db : DB) (tid : String) (now : Nat) :
    (handle_timeout db tid now).1.staff = db.staff := by
  cases hf : db.support_tickets.find? (fun t => t.id == tid) with
  | none => unfold handle_timeout; rw [hf]
  | some t =>
    unfold handle_timeout
    rw [hf]
    dsimp only
    split <;> (try split) <;> rfl

/-- Counterexample for C3: agent "A" is already at its maximum of 1 chat, yet
transferring a conversation to "A" pushes its stored count to 2, violating
current_chats ≤ max_concurrent_chats. -/
theorem C3_counterexample :
    agentChats (transfer_conversation
      { staff := [mkAgent "A" 1 1, mkAgent "B" 1 1], support_tickets := [],
        conversations := [mkConv "c1" "u1" .escalated (some "B")] }
      "c1" "B" "A" 30).1 "A" = 2 ∧
    (mkAgent "A" 1 1).maxChats = 1 ∧
    ¬ (∀ ag ∈ (transfer_conversation
        { staff := [mkAgent "A" 1 1, mkAgent "B" 1 1], support_tickets := [],
          conversations := [mkConv "c1" "u1" .escalated (some "B")] }
        "c1" "B" "A" 30).1.staff, ag.currentChats ≤ ag.maxChats) := by
  refine ⟨by decide, by decide, by decide⟩

/-- C3 as amended: the lower bound 0 ≤ current_chats is preserved by every
core operation, because every write of the counter stores
`max 0 (old + increment)`; the upper bound current_chats ≤
max_concurrent_chats is NOT enforced by transfer_conversation, which
increments the destination agent without a capacity check. -/
theorem C3_load_lower_bound_amended (db : DB)
    (h : ∀ ag ∈ db.staff, 0 ≤ ag.currentChats) :
    (∀ uid cid subj desc tid now, ∀ ag ∈
      (escalate_to_human db uid cid subj desc tid now).1.staff, 0 ≤ ag.currentChats) ∧
    (∀ cid tk now, ∀ ag ∈ (end_conversation db cid tk now).1.staff,
      0 ≤ ag.currentChats) ∧
    (∀ cid f t now, ∀ ag ∈ (transfer_conversation db cid f t now).1.staff,
      0 ≤ ag.currentChats) ∧
    (∀ tid now, ∀ ag ∈ (handle_timeout db tid now).1.staff, 0 ≤ ag.currentChats) ∧
    (∀ tid now, ∀ ag ∈ (resolve_ticket db tid now).staff, 0 ≤ ag.currentChats) := by
  refine ⟨?_, ?_, ?_, ?_, ?_⟩
  · intro uid cid subj desc tid now
    cases hz : get_agent_with_capacity db with
    | none =>
      rw [escalate_no_capacity db uid cid subj desc tid now hz]
      exact h
    | some a =>
      rw [escalate_success db uid cid subj desc tid now a hz]
      exact update_count_nonneg _ _ _ h
  · intro cid tk now
    rcases end_conversation_staff db cid tk now with hst | ⟨aid, hst⟩
    · rw [hst]; exact h
    · rw [hst]; exact update_count_nonneg _ _ _ h
  · intro cid f t now
    rw [transfer_conversation_staff db cid f t now]
    exact update_count_nonneg _ _ _ (update_count_nonneg _ _ _ h)
  · intro tid now
    rw [handle_timeout_staff db tid now]
    exact h
  · intro tid now
    exact h

/-- Witness for C3 (amended): from a store whose only agent has load 0, each
operation keeps every stored load nonnegative; in particular ending a
conversation whose agent is at load 0 floors the decrement at zero. -/
theorem C3_load_lower_bound_amended_witness :
    (∀ ag ∈ (end_conversation
      { staff := [mkAgent "A" 0 5], support_tickets := [],
        conversations := [mkConv "c1" "u1" .escalated (some "A")] }
      "c1" none 40).1.staff, 0 ≤ ag.currentChats) ∧
    agentChats (end_conversation
      { staff := [mkAgent "A" 0 5], support_tickets := [],
        conversations := [mkConv "c1" "u1" .escalated (some "A")] }
      "c1" none 40).1 "A" = 0 := by
  refine ⟨?_, by decide⟩
  exact (C3_load_lower_bound_amended
    { staff := [mkAgent "A" 0 5], support_tickets := [],
      conversations := [mkConv "c1" "u1" .escalated (some "A")] }
    (by decide)).2.1 "c1" none 40

/-! ## C4 -/

/-- What resolve_ticket does to the rows of the tickets table: the row with
the target id is set to RESOLVED with the resolution stamp whatever its
prior status; every other row is kept as stored. -/
lemma resolve_ticket_mem (db : DB) (tid : String) (now : Nat) :
    ∀ t ∈ (resolve_ticket db tid now).support_tickets,
      (t.id = tid → t.status = TicketStatus.resolved ∧ t.resolved_at = some now) ∧
      (t.id ≠ tid → t ∈ db.support_tickets) := by
  intro t ht
  obtain ⟨src, hsrc, hmap⟩ := List.mem_map.mp ht
  by_cases hid : (src.id == tid) = true
  · rw [← hmap, if_pos hid]
    refine ⟨fun _ => ⟨rfl, rfl⟩, fun hne => absurd ?_ hne⟩
    simpa using hid
  · rw [← hmap, if_neg hid]
    refine ⟨fun hidt => absurd hidt (by simpa using hid), fun _ => hsrc⟩

/-- end_conversation on a conversation with a truthy agent, spelled out. -/
lemma end_conversation_success (db : DB) (cid : String) (tk : Option String)
    (now : Nat) (conv : Conversation)
    (hf : db.conversations.find? (fun c => c.id == cid) = some conv)
    (hag : conv.agent_id.getD "" ≠ "") :
    end_conversation db cid tk now =
      (let db1 := update_agent_chat_count db (conv.agent_id.getD "") (-1)
       let db2 := { db1 with conversations := db1.conversations.map (fun c =>
         if c.id == cid then { c with status := .closed, ended_at := some now } else c) }
       match tk with
       | some tid => (resolve_ticket db2 tid now, true)
       | none => (db2, true)) := by
  unfold end_conversation
  simp only [hf]
  rw [if_pos hag]
  cases tk <;> rfl

/-- Counterexample for C4: resolving a CLOSED ticket is not a no-op — the
code overwrites the status to RESOLVED and stamps a new resolution time,
though the claim says resolve succeeds only from ASSIGNED or IN_PROGRESS and
changes no state otherwise. -/
theorem C4_counterexample :
    ((resolve_ticket
        { staff := [], conversations := [],
          support_tickets := [mkTicket "t1" "u1" "c1" .closed 5 10] }
        "t1" 50).support_tickets =
      [{ mkTicket "t1" "u1" "c1" .closed 5 10 with
          status := TicketStatus.resolved, resolved_at := some 50 }]) ∧
    ((resolve_ticket
        { staff := [], conversations := [],
          support_tickets := [mkTicket "t1" "u1" "c1" .closed 5 10] }
        "t1" 50).support_tickets ≠
      [mkTicket "t1" "u1" "c1" .closed 5 10]) := by
  refine ⟨by decide, by decide⟩

/-- C4 as amended: resolve_ticket never checks the prior status and reports
no already_resolved — it unconditionally sets the ticket to RESOLVED with a
fresh resolution stamp (from any status, including RESOLVED or CLOSED),
keeps every other ticket, and touches no agent or conversation; the capacity
release and the closing of the conversation are done by end_conversation,
which (when the conversation has a truthy agent id) reports true, floors the
decremented count at zero, closes the conversation, and resolves the
supplied ticket — again regardless of the ticket's status. -/
theorem C4_resolve_unconditional_amended (db : DB) (tid : String) (now : Nat) :
    ((resolve_ticket db tid now).staff = db.staff) ∧
    ((resolve_ticket db tid now).conversations = db.conversations) ∧
    (∀ t ∈ (resolve_ticket db tid now).support_tickets,
      (t.id = tid → t.status = TicketStatus.resolved ∧ t.resolved_at = some now) ∧
      (t.id ≠ tid → t ∈ db.support_tickets)) ∧
    (∀ cid conv, db.conversations.find? (fun c => c.id == cid) = some conv →
      conv.agent_id.getD "" ≠ "" →
      (db.staff.find? (fun a => a.id == conv.agent_id.getD "")).isSome →
      (end_conversation db cid (some tid) now).2 = true ∧
      agentChats (end_conversation db cid (some tid) now).1 (conv.agent_id.getD "") =
        max 0 (agentChats db (conv.agent_id.getD "") + (-1)) ∧
      (∀ c ∈ (end_conversation db cid (some tid) now).1.conversations,
        c.id = cid → c.status = ConvStatus.closed ∧ c.ended_at = some now) ∧
      (∀ t ∈ (end_conversation db cid (some tid) now).1.support_tickets,
        (t.id = tid → t.status = TicketStatus.resolved ∧ t.resolved_at = some now))) := by
  refine ⟨rfl, rfl, resolve_ticket_mem db tid now, ?_⟩
  intro cid conv hf hag hsome
  rw [end_conversation_success db cid (some tid) now conv hf hag]
  refine ⟨rfl, ?_, ?_, ?_⟩
  · exact agentChats_update db (conv.agent_id.getD "") (-1) hsome
  · intro c hc hcid
    obtain ⟨src, hsrc, hmap⟩ := List.mem_map.mp hc
    by_cases hid : (src.id == cid) = true
    · rw [← hmap, if_pos hid]
      exact ⟨rfl, rfl⟩
    · exfalso
      apply (by simpa using hid : ¬ src.id = cid)
      have hcs : c.id = src.id := by
        rw [← hmap, if_neg hid]
      rw [← hcs]; exact hcid
  · intro t ht
    exact (resolve_ticket_mem _ tid now t ht).1

/-- Witness for C4 (amended): resolving ticket "t1" of a conversation whose
agent is "A": end_conversation reports true, decrements "A" from 1 to 0,
closes the conversation and resolves the ticket. -/
theorem C4_resolve_unconditional_amended_witness :
    ((resolve_ticket
        { staff := [mkAgent "A" 1 5],
          conversations := [mkConv "c1" "u1" .escalated (some "A")],
          support_tickets := [mkTicket "t1" "u1" "c1" .assigned 5 305] }
        "t1" 60).staff = [mkAgent "A" 1 5]) ∧
    ((end_conversation
        { staff := [mkAgent "A" 1 5],
          conversations := [mkConv "c1" "u1" .escalated (some "A")],
          support_tickets := [mkTicket "t1" "u1" "c1" .assigned 5 305] }
        "c1" (some "t1") 60).2 = true) ∧
    (agentChats (end_conversation
        { staff := [mkAgent "A" 1 5],
          conversations := [mkConv "c1" "u1" .escalated (some "A")],
          support_tickets := [mkTicket "t1" "u1" "c1" .assigned 5 305] }
        "c1" (some "t1") 60).1
        ((mkConv "c1" "u1" .escalated (some "A")).agent_id.getD "") =
      max 0 (agentChats
        { staff := [mkAgent "A" 1 5],
          conversations := [mkConv "c1" "u1" .escalated (some "A")],
          support_tickets := [mkTicket "t1" "u1" "c1" .assigned 5 305] }
        ((mkConv "c1" "u1" .escalated (some "A")).agent_id.getD "") + (-1))) := by
  have h := C4_resolve_unconditional_amended
    { staff := [mkAgent "A" 1 5],
      conversations := [mkConv "c1" "u1" .escalated (some "A")],
      support_tickets := [mkTicket "t1" "u1" "c1" .assigned 5 305] }
    "t1" 60
  have h4 := h.2.2.2 "c1" (mkConv "c1" "u1" .escalated (some "A"))
    (by decide) (by decide) (by decide)
  exact ⟨h.1, h4.1, h4.2.1⟩

/-! ## C5 -/

/-- A chat-count update never touches the tickets table. -/
lemma update_count_tickets (db : DB) (aid : String) (inc : Int) :
    (update_agent_chat_count db aid inc).support_tickets = db.support_tickets := by
  unfold update_agent_chat_count
  cases db.staff.find? (fun a => a.id == aid) <;> rfl

/-- A chat-count update never touches the conversations table. -/
lemma update_count_convs (db : DB) (aid : String) (inc : Int) :
    (update_agent_chat_count db aid inc).conversations = db.conversations := by
  unfold update_agent_chat_count
  cases db.staff.find? (fun a => a.id == aid) <;> rfl

/-- A chat-count update keeps the stored value of every other agent id. -/
lemma agentChats_update_other (db : DB) (aid other : String) (inc : Int)
    (hne : other ≠ aid) :
    agentChats (update_agent_chat_count db aid inc) other = agentChats db other := by
  cases hf : db.staff.find? (fun a => a.id == aid) with
  | none => unfold update_agent_chat_count; rw [hf]
  | some a =>
    unfold agentChats update_agent_chat_count
    simp only [hf]
    rw [find?_map_pres (fun b : Agent => b.id == other)
      (fun b : Agent =>
        if b.id == aid then
          { b with current_chats := some (max 0 (a.currentChats + inc)) } else b)
      (by intro x; by_cases hb : (x.id == aid) <;> simp [hb]) db.staff]
    cases hfo : db.staff.find? (fun b => b.id == other) with
    | none => rfl
    | some b =>
      simp only [Option.map_some']
      have hbid : b.id = other := by
        simpa using @List.find?_some Agent (fun x => x.id == other) b db.staff hfo
      have hbne : ¬ ((b.id == aid) = true) := by
        simp [hbid]; exact hne
      rw [if_neg hbne]

/-- A chat-count update does not add or remove agent ids. -/
lemma update_find_isSome (db : DB) (aid : String) (inc : Int) (other : String) :
    ((update_agent_chat_count db aid inc).staff.find? (fun a => a.id == other)).isSome =
      (db.staff.find? (fun a => a.id == other)).isSome := by
  cases hf : db.staff.find? (fun a => a.id == aid) with
  | none => unfold update_agent_chat_count; rw [hf]
  | some a =>
    unfold update_agent_chat_count
    simp only [hf]
    rw [find?_map_pres (fun b : Agent => b.id == other)
      (fun b : Agent =>
        if b.id == aid then
          { b with current_chats := some (max 0 (a.currentChats + inc)) } else b)
      (by intro x; by_cases hb : (x.id == aid) <;> simp [hb]) db.staff]
    rw [Option.isSome_map']

/-- escalate_conversation never touches the tickets or staff tables. -/
lemma escalate_conversation_tickets (db : DB) (cid aid : String) (now : Nat) :
    (escalate_conversation db cid aid now).support_tickets = db.support_tickets := rfl

/-- transfer_conversation's conversations table comes only from the
escalation step. -/
lemma transfer_conversation_convs (db : DB) (cid f t : String) (now : Nat) :
    (transfer_conversation db cid f t now).1.conversations =
      (escalate_conversation db cid t now).conversations := by
  unfold transfer_conversation
  dsimp only
  split
  · rw [update_count_convs, update_count_convs]
  · rw [update_count_convs, update_count_convs]

/-- When the conversation has no ASSIGNED ticket, transfer_conversation
leaves the tickets table as stored. -/
lemma transfer_conversation_tickets_none (db : DB) (cid f t : String) (now : Nat)
    (hfilter : db.support_tickets.filter
      (fun tk => tk.conversation_id == cid && tk.status == TicketStatus.assigned) = []) :
    (transfer_conversation db cid f t now).1.support_tickets = db.support_tickets := by
  unfold transfer_conversation
  dsimp only
  rw [update_count_tickets, update_count_tickets, escalate_conversation_tickets, hfilter]
  dsimp only
  rw [update_count_tickets, update_count_tickets, escalate_conversation_tickets]

/-- Counterexample for C5: the conversation's only ticket is PENDING (so not
ASSIGNED/IN_PROGRESS to the source agent), yet transfer reports true and
mutates state — it moves the conversation to agent "T" and changes both
agents' counters — where the claim demands an invalid_transfer failure with
no state change. -/
theorem C5_counterexample :
    ((transfer_conversation
        { staff := [mkAgent "F" 1 5, mkAgent "T" 0 5],
          support_tickets := [mkTicket "t1" "u1" "c1" .pending 5 305],
          conversations := [mkConv "c1" "u1" .escalated (some "F")] }
        "c1" "F" "T" 30).2 = true) ∧
    (agentChats (transfer_conversation
        { staff := [mkAgent "F" 1 5, mkAgent "T" 0 5],
          support_tickets := [mkTicket "t1" "u1" "c1" .pending 5 305],
          conversations := [mkConv "c1" "u1" .escalated (some "F")] }
        "c1" "F" "T" 30).1 "T" = 1) ∧
    ((transfer_conversation
        { staff := [mkAgent "F" 1 5, mkAgent "T" 0 5],
          support_tickets := [mkTicket "t1" "u1" "c1" .pending 5 305],
          conversations := [mkConv "c1" "u1" .escalated (some "F")] }
        "c1" "F" "T" 30).1.staff ≠ [mkAgent "F" 1 5, mkAgent "T" 0 5]) := by
  refine ⟨by decide, by decide, by decide⟩

/-- C5 as amended: transfer_conversation has no precondition at all — it
always reports true, always moves the conversation to the destination agent,
always decrements the source's counter (floored at zero) and increments the
destination's; the ticket's assigned agent is rewritten only when the
conversation owns a ticket whose status is exactly ASSIGNED (an IN_PROGRESS
ticket, or no ticket, leaves the tickets table unchanged while the counters
and the conversation still move). -/
theorem C5_transfer_unconditional_amended (db : DB) (cid f t : String) (now : Nat)
    (hf : (db.staff.find? (fun a => a.id == f)).isSome)
    (ht : (db.staff.find? (fun a => a.id == t)).isSome)
    (hft : f ≠ t) :
    ((transfer_conversation db cid f t now).2 = true) ∧
    (agentChats (transfer_conversation db cid f t now).1 f =
      max 0 (agentChats db f + (-1))) ∧
    (agentChats (transfer_conversation db cid f t now).1 t =
      max 0 (agentChats db t + 1)) ∧
    (∀ c ∈ (transfer_conversation db cid f t now).1.conversations,
      c.id = cid → c.status = ConvStatus.escalated ∧ c.agent_id = some t) ∧
    (db.support_tickets.filter
        (fun tk => tk.conversation_id == cid && tk.status == TicketStatus.assigned) = [] →
      (transfer_conversation db cid f t now).1.support_tickets = db.support_tickets) := by
  have hstaff := transfer_conversation_staff db cid f t now
  have hdb1 : (escalate_conversation db cid t now).staff = db.staff := rfl
  refine ⟨?_, ?_, ?_, ?_, ?_⟩
  · rfl
  · have hf2 : ((escalate_conversation db cid t now).staff.find?
        (fun a => a.id == f)).isSome := hf
    rw [agentChats_congr hstaff f, agentChats_update_other _ t f 1 hft,
        agentChats_update _ f (-1) hf2]
    rfl
  · have hsome2 : ((update_agent_chat_count (escalate_conversation db cid t now)
        f (-1)).staff.find? (fun a => a.id == t)).isSome := by
      rw [update_find_isSome]; exact ht
    rw [agentChats_congr hstaff t, agentChats_update _ t 1 hsome2,
        agentChats_update_other _ f t (-1) (fun he => hft he.symm)]
    rfl
  · intro c hc hcid
    rw [transfer_conversation_convs db cid f t now] at hc
    obtain ⟨src, hsrc, hmap⟩ := List.mem_map.mp hc
    by_cases hid : (src.id == cid) = true
    · rw [← hmap, if_pos hid]
      exact ⟨rfl, rfl⟩
    · exfalso
      apply (by simpa using hid : ¬ src.id = cid)
      have hcs : c.id = src.id := by rw [← hmap, if_neg hid]
      rw [← hcs]; exact hcid
  · exact transfer_conversation_tickets_none db cid f t now

/-- Witness for C5 (amended): transferring conversation "c1" from "F" to "T"
with only a PENDING ticket present reports true, moves the counters
(F: 1 → 0, T: 0 → 1) and leaves the tickets table unchanged. -/
theorem C5_transfer_unconditional_amended_witness :
    ((transfer_conversation
        { staff := [mkAgent "F" 1 5, mkAgent "T" 0 5],
          support_tickets := [mkTicket "t1" "u1" "c1" .pending 5 305],
          conversations := [mkConv "c1" "u1" .escalated (some "F")] }
        "c1" "F" "T" 30).2 = true) ∧
    (agentChats (transfer_conversation
        { staff := [mkAgent "F" 1 5, mkAgent "T" 0 5],
          support_tickets := [mkTicket "t1" "u1" "c1" .pending 5 305],
          conversations := [mkConv "c1" "u1" .escalated (some "F")] }
        "c1" "F" "T" 30).1 "F" =
      max 0 (agentChats
        { staff := [mkAgent "F" 1 5, mkAgent "T" 0 5],
          support_tickets := [mkTicket "t1" "u1" "c1" .pending 5 305],
          conversations := [mkConv "c1" "u1" .escalated (some "F")] } "F" + (-1))) ∧
    ((transfer_conversation
        { staff := [mkAgent "F" 1 5, mkAgent "T" 0 5],
          support_tickets := [mkTicket "t1" "u1" "c1" .pending 5 305],
          conversations := [mkConv "c1" "u1" .escalated (some "F")] }
        "c1" "F" "T" 30).1.support_tickets =
      [mkTicket "t1" "u1" "c1" .pending 5 305]) := by
  have h := C5_transfer_unconditional_amended
    { staff := [mkAgent "F" 1 5, mkAgent "T" 0 5],
      support_tickets := [mkTicket "t1" "u1" "c1" .pending 5 305],
      conversations := [mkConv "c1" "u1" .escalated (some "F")] }
    "c1" "F" "T" 30 (by decide) (by decide) (by decide)
  exact ⟨h.1, h.2.1, h.2.2.2.2 (by decide)⟩

/-! ## C6 -/

/-- The three outcomes of handle_timeout on a found ticket: close-and-notify
for an expired PENDING ticket, report-only for an expired non-PENDING
ticket, and nothing for an unexpired ticket. -/
lemma handle_timeout_cases (db : DB) (tid : String) (now : Nat) (t : Ticket)
    (hf : db.support_tickets.find? (fun u => u.id == tid) = some t) :
    (t.timeout_at < now → t.status = TicketStatus.pending →
      handle_timeout db tid now =
        ({ db with support_tickets := db.support_tickets.map (fun u =>
            if u.id == tid then
              { u with status := .closed, resolved_at := some now } else u) },
         true, [t.user_id])) ∧
    (t.timeout_at < now → t.status ≠ TicketStatus.pending →
      handle_timeout db tid now = (db, true, [])) ∧
    (¬ t.timeout_at < now → handle_timeout db tid now = (db, false, [])) := by
  refine ⟨?_, ?_, ?_⟩
  · intro hto hst
    unfold handle_timeout
    simp only [hf]
    rw [if_pos hto, if_pos (by simpa using hst)]
  · intro hto hst
    unfold handle_timeout
    simp only [hf]
    rw [if_pos hto, if_neg (by simpa using hst)]
  · intro hto
    unfold handle_timeout
    simp only [hf]
    rw [if_neg hto]

/-- Counterexample for C6: a PENDING ticket whose deadline equals the current
instant (timeout_at = now = 5) satisfies the claim's `timeout_at ≤ now`, yet
the handler does nothing — the comparison in the code is strict
(`utcnow() > timeout_at`), so the ticket is not closed. -/
theorem C6_counterexample :
    (handle_timeout
      { staff := [], conversations := [],
        support_tickets := [mkTicket "t1" "u1" "c1" .pending 0 5] } "t1" 5 =
      ({ staff := [], conversations := [],
         support_tickets := [mkTicket "t1" "u1" "c1" .pending 0 5] }, false, [])) ∧
    ((mkTicket "t1" "u1" "c1" .pending 0 5).timeout_at ≤ 5) ∧
    ¬ (∃ t ∈ (handle_timeout
        { staff := [], conversations := [],
          support_tickets := [mkTicket "t1" "u1" "c1" .pending 0 5] } "t1" 5).1.support_tickets,
        t.id = "t1" ∧ t.status = TicketStatus.closed) := by
  refine ⟨by decide, by decide, by decide⟩

/-- C6 as amended: for a ticket whose status is PENDING and whose deadline is
strictly in the past (timeout_at < now, not ≤), handle_timeout closes the
ticket, stamps its resolution time, emits the notify-user-of-timeout side
effect, and touches neither agents nor conversations; an ASSIGNED or
IN_PROGRESS ticket is never closed by the handler (the store is returned
unchanged with no notification); and at timeout_at = now nothing happens. -/
theorem C6_timeout_strict_amended (db : DB) (tid : String) (now : Nat) (t : Ticket)
    (hf : db.support_tickets.find? (fun u => u.id == tid) = some t) :
    (t.status = TicketStatus.pending → t.timeout_at < now →
      (handle_timeout db tid now).2.1 = true ∧
      (handle_timeout db tid now).2.2 = [t.user_id] ∧
      (handle_timeout db tid now).1.staff = db.staff ∧
      (handle_timeout db tid now).1.conversations = db.conversations ∧
      ∀ u ∈ (handle_timeout db tid now).1.support_tickets,
        (u.id = tid → u.status = TicketStatus.closed ∧ u.resolved_at = some now) ∧
        (u.id ≠ tid → u ∈ db.support_tickets)) ∧
    (t.status = TicketStatus.assigned ∨ t.status = TicketStatus.in_progress →
      (handle_timeout db tid now).1 = db ∧ (handle_timeout db tid now).2.2 = []) ∧
    (t.timeout_at = now → handle_timeout db tid now = (db, false, [])) := by
  obtain ⟨hclose, hrep, hnone⟩ := handle_timeout_cases db tid now t hf
  refine ⟨?_, ?_, ?_⟩
  · intro hst hto
    rw [hclose hto hst]
    refine ⟨rfl, rfl, rfl, rfl, ?_⟩
    intro u hu
    obtain ⟨src, hsrc, hmap⟩ := List.mem_map.mp hu
    by_cases hid : (src.id == tid) = true
    · rw [← hmap, if_pos hid]
      refine ⟨fun _ => ⟨rfl, rfl⟩, fun hne => absurd ?_ hne⟩
      simpa using hid
    · rw [← hmap, if_neg hid]
      refine ⟨fun hidt => absurd hidt (by simpa using hid), fun _ => hsrc⟩
  · intro hst
    have hstne : t.status ≠ TicketStatus.pending := by
      rcases hst with h | h <;> rw [h] <;> intro hc <;> cases hc
    by_cases hto : t.timeout_at < now
    · rw [hrep hto hstne]
      exact ⟨rfl, rfl⟩
    · rw [hnone hto]
      exact ⟨rfl, rfl⟩
  · intro heq
    refine hnone ?_
    rw [heq]
    exact lt_irrefl now

/-- Witness for C6 (amended): an expired PENDING ticket is closed, stamped
and notified; an expired ASSIGNED ticket is left untouched. -/
theorem C6_timeout_strict_amended_witness :
    ((handle_timeout
        { staff := [], conversations := [],
          support_tickets := [mkTicket "t1" "u1" "c1" .pending 0 5] } "t1" 9).2.1 = true) ∧
    ((handle_timeout
        { staff := [], conversations := [],
          support_tickets := [mkTicket "t1" "u1" "c1" .pending 0 5] } "t1" 9).2.2 = ["u1"]) ∧
    ((handle_timeout
        { staff := [], conversations := [],
          support_tickets := [mkTicket "t2" "u2" "c2" .assigned 0 5] } "t2" 9).1 =
      { staff := [], conversations := [],
        support_tickets := [mkTicket "t2" "u2" "c2" .assigned 0 5] }) := by
  have h1 := (C6_timeout_strict_amended
    { staff := [], conversations := [],
      support_tickets := [mkTicket "t1" "u1" "c1" .pending 0 5] } "t1" 9
    (mkTicket "t1" "u1" "c1" .pending 0 5) (by decide)).1 (by decide) (by decide)
  have h2 := (C6_timeout_strict_amended
    { staff := [], conversations := [],
      support_tickets := [mkTicket "t2" "u2" "c2" .assigned 0 5] } "t2" 9
    (mkTicket "t2" "u2" "c2" .assigned 0 5) (by decide)).2.1 (Or.inl (by decide))
  exact ⟨h1.1, h1.2.1, h2.1⟩

/-! ## C9 -/

/-- Counterexample for C9: with an available agent and a persistence failure
in the chat-count update (the only step after assignment), escalate reports
SUCCESS — not FAILED("system_error") — and leaves the ticket ASSIGNED while
the agent's counter was never incremented: exactly the state the claim says
is unreachable. -/
theorem C9_counterexample :
    ((escalate_to_human_faulty
        { create_raises := false, create_ok := true, assign_ok := true,
          conv_ok := true, count_ok := false }
        { staff := [mkAgent "A" 0 5], support_tickets := [],
          conversations := [mkConv "c1" "u1" .active none] }
        "u1" "c1" none none "t1" 100).2.success = true) ∧
    (∃ u ∈ (escalate_to_human_faulty
        { create_raises := false, create_ok := true, assign_ok := true,
          conv_ok := true, count_ok := false }
        { staff := [mkAgent "A" 0 5], support_tickets := [],
          conversations := [mkConv "c1" "u1" .active none] }
        "u1" "c1" none none "t1" 100).1.support_tickets,
      u.id = "t1" ∧ u.status = TicketStatus.assigned) ∧
    (agentChats (escalate_to_human_faulty
        { create_raises := false, create_ok := true, assign_ok := true,
          conv_ok := true, count_ok := false }
        { staff := [mkAgent "A" 0 5], support_tickets := [],
          conversations := [mkConv "c1" "u1" .active none] }
        "u1" "c1" none none "t1" 100).1 "A" = 0) := by
  refine ⟨by decide, by decide, by decide⟩

/-- C9 as amended: a raising create surfaces as FAILED("system_error") with
the store unchanged, and a create that returns no row yields the
"Failed to create support ticket" error with the store unchanged; a failed
assignment leaves the ticket PENDING and reports the same create-failure
message (not system_error); but a failure of the chat-count update after a
successful assignment is swallowed — escalate reports success and the store
is left with the ticket ASSIGNED while the agent's counter was never
incremented, so the all-or-nothing guarantee does not hold. -/
theorem C9_no_rollback_amended (db : DB) (uid cid : String)
    (subj desc : Option String) (tid : String) (now : Nat) (agent : Agent)
    (f : Faults) (h : get_agent_with_capacity db = some agent) :
    (f.create_raises = true →
      escalate_to_human_faulty f db uid cid subj desc tid now =
        (db, systemErrorResult)) ∧
    (f.create_raises = false → f.create_ok = false →
      escalate_to_human_faulty f db uid cid subj desc tid now =
        (db, createFailedResult)) ∧
    (f.create_raises = false → f.create_ok = true → f.assign_ok = false →
      escalate_to_human_faulty f db uid cid subj desc tid now =
        ({ db with support_tickets := db.support_tickets ++
            [newTicket uid cid subj desc tid now] }, createFailedResult)) ∧
    (f.create_raises = false → f.create_ok = true → f.assign_ok = true →
      f.count_ok = false →
      (escalate_to_human_faulty f db uid cid subj desc tid now).2.success = true ∧
      (escalate_to_human_faulty f db uid cid subj desc tid now).1.staff = db.staff ∧
      ∃ u ∈ (escalate_to_human_faulty f db uid cid subj desc tid now).1.support_tickets,
        u.id = tid ∧ u.status = TicketStatus.assigned) := by
  refine ⟨?_, ?_, ?_, ?_⟩
  · intro h1
    unfold escalate_to_human_faulty
    rw [h]
    simp only [h1, if_true]
  · intro h1 h2
    unfold escalate_to_human_faulty
    rw [h]
    simp only [h1, h2, Bool.false_eq_true, if_false]
  · intro h1 h2 h3
    unfold escalate_to_human_faulty
    rw [h]
    simp only [h1, h2, h3, Bool.false_eq_true, if_false, if_true]
  · intro h1 h2 h3 h4
    unfold escalate_to_human_faulty
    rw [h]
    simp only [h1, h2, h3, h4, Bool.false_eq_true, if_false, if_true]
    refine ⟨rfl, ?_, ?_⟩
    · cases hc : f.conv_ok <;> simp only [hc, Bool.false_eq_true, if_false, if_true] <;> rfl
    · cases hc : f.conv_ok <;>
        simp only [hc, Bool.false_eq_true, if_false, if_true] <;>
        exact ⟨{ newTicket uid cid subj desc tid now with
                  status := .assigned, agent_id := some agent.id },
               List.mem_map.mpr ⟨newTicket uid cid subj desc tid now,
                 by simp, by simp [newTicket]⟩, rfl, rfl⟩

/-- Witness for C9 (amended): one free agent; each fault pattern produces the
stated outcome, in particular a failed count update still reports success. -/
theorem C9_no_rollback_amended_witness :
    (escalate_to_human_faulty
        { create_raises := true, create_ok := true, assign_ok := true,
          conv_ok := true, count_ok := true }
        { staff := [mkAgent "A" 0 5], support_tickets := [],
          conversations := [mkConv "c1" "u1" .active none] }
        "u1" "c1" none none "t1" 100 =
      ({ staff := [mkAgent "A" 0 5], support_tickets := [],
         conversations := [mkConv "c1" "u1" .active none] }, systemErrorResult)) ∧
    ((escalate_to_human_faulty
        { create_raises := false, create_ok := true, assign_ok := true,
          conv_ok := true, count_ok := false }
        { staff := [mkAgent "A" 0 5], support_tickets := [],
          conversations := [mkConv "c1" "u1" .active none] }
        "u1" "c1" none none "t1" 100).2.success = true) ∧
    ((escalate_to_human_faulty
        { create_raises := false, create_ok := true, assign_ok := true,
          conv_ok := true, count_ok := false }
        { staff := [mkAgent "A" 0 5], support_tickets := [],
          conversations := [mkConv "c1" "u1" .active none] }
        "u1" "c1" none none "t1" 100).1.staff = [mkAgent "A" 0 5]) := by
  have hraise := (C9_no_rollback_amended
    { staff := [mkAgent "A" 0 5], support_tickets := [],
      conversations := [mkConv "c1" "u1" .active none] }
    "u1" "c1" none none "t1" 100 (mkAgent "A" 0 5)
    { create_raises := true, create_ok := true, assign_ok := true,
      conv_ok := true, count_ok := true } (by decide)).1 rfl
  have hcount := (C9_no_rollback_amended
    { staff := [mkAgent "A" 0 5], support_tickets := [],
      conversations := [mkConv "c1" "u1" .active none] }
    "u1" "c1" none none "t1" 100 (mkAgent "A" 0 5)
    { create_raises := false, create_ok := true, assign_ok := true,
      conv_ok := true, count_ok := false } (by decide)).2.2.2 rfl rfl rfl rfl
  exact ⟨hraise, hcount.1, hcount.2.1⟩

/-! ## C10 -/

/-- One agent with max_concurrent_chats = 1 and current_chats = 0, and two
conversations about to escalate concurrently. -/
def raceInit : Sys :=
  { db := { staff := [mkAgent "A" 0 1], support_tickets := [],
            conversations := [mkConv "c1" "u1" .active none,
                              mkConv "c2" "u2" .active none] },
    t1 := { user_id := "u1", conversation_id := "c1", tid := "t1", now := 100,
            phase := .ready },
    t2 := { user_id := "u2", conversation_id := "c2", tid := "t2", now := 100,
            phase := .ready } }

/-- The racy interleaving: both tasks run their capacity scan before either
increments the counter. -/
def raceSched : List Bool :=
  [true, false, true, true, true, true, false, false, false, false]

/-- The serialized schedule: the first call runs to completion before the
second starts. -/
def serialSched : List Bool :=
  [true, true, true, true, true, false, false]

/-- Counterexample for C10: under the interleaving in which both calls scan
before either increments, BOTH escalations finish ASSIGNED (success = true)
— the claim's "never two ASSIGNED" is false of the code, whose scan and
increment are two separate store accesses — and the agent's counter ends at
2, above its maximum of 1. -/
theorem C10_counterexample :
    ((runSched raceInit raceSched).t1.phase =
      Phase.finished (connectedResult (mkAgent "A" 0 1) "t1")) ∧
    ((runSched raceInit raceSched).t2.phase =
      Phase.finished (connectedResult (mkAgent "A" 0 1) "t2")) ∧
    ((connectedResult (mkAgent "A" 0 1) "t1").success = true) ∧
    ((connectedResult (mkAgent "A" 0 1) "t2").success = true) ∧
    (agentChats (runSched raceInit raceSched).db "A" = 2) ∧
    ((mkAgent "A" 0 1).maxChats = 1) := by
  refine ⟨by decide, by decide, by decide, by decide, by decide, by decide⟩

/-- C10 as amended: the scan and the increment are separate awaited store
accesses, so the outcome depends on the schedule — the racy interleaving
yields two ASSIGNED results and a counter of 2 on an agent whose maximum is
1, while the serialized schedule yields one ASSIGNED result and one
no-capacity failure (the dict with status "queue", not a QUEUED ticket), with
the counter at 1. -/
theorem C10_race_amended :
    ((runSched raceInit serialSched).t1.phase =
      Phase.finished (connectedResult (mkAgent "A" 0 1) "t1")) ∧
    ((runSched raceInit serialSched).t2.phase = Phase.finished noAgentResult) ∧
    (noAgentResult.success = false) ∧
    (agentChats (runSched raceInit serialSched).db "A" = 1) ∧
    ((runSched raceInit raceSched).t1.phase =
      Phase.finished (connectedResult (mkAgent "A" 0 1) "t1")) ∧
    ((runSched raceInit raceSched).t2.phase =
      Phase.finished (connectedResult (mkAgent "A" 0 1) "t2")) ∧
    (agentChats (runSched raceInit raceSched).db "A" = 2) := by
  refine ⟨by decide, by decide, by decide, by decide, by decide, by decide, by decide⟩

end MmlinkCS
